import Mathlib

/-!
Verification development for the alpaca-bot trading system.

Shallow embedding of the backtest replay engine (`bot/backtest/engine.py`,
function `run_backtest`), the live execution loop (`bot/controller.py`,
`Controller._run_live`) and the adaptive gap-and-go policy
(`bot/strategy/gap_and_go.py`).  Prices, cash and volumes are modelled as
rationals; Python float arithmetic is exact on every concrete value used
below.  Timestamps are abstract naturals; bars carry their Eastern
wall-clock fields directly (the pytz conversion is outside the model).
-/

namespace AlpacaBot

/-- Side of a position: the strings `'long'` / `'short'` in
`bot/backtest/engine.py` (and `"BUY"` / `"SELL"` in `bot/controller.py`). -/
inductive Side where
  | long
  | short
  deriving DecidableEq, Repr

/-- The `SignalType` enum from `bot/state.py`. -/
inductive SignalType where
  | buy
  | sell
  | flat
  deriving DecidableEq, Repr

/-- The `Signal` dataclass from `bot/state.py` (free-form `meta` dropped). -/
structure Signal where
  type : SignalType
  sl_pct : Option ℚ := none
  tp_pct : Option ℚ := none
  deriving DecidableEq, Repr

/-- The `Bar` dataclass from `bot/state.py`; the field `open` is renamed
`open_` because `open` is a Lean keyword. -/
structure Bar where
  timestamp : ℕ
  open_ : ℚ
  high : ℚ
  low : ℚ
  close : ℚ
  volume : ℚ
  deriving DecidableEq, Repr

/-- Python truthiness of an optional float: `None` and `0.0` are falsy. -/
def truthy : Option ℚ → Bool
  | none => false
  | some x => x != 0

/-- Python `a or d` for an optional float `a`: `None` and `0.0` fall back
to the default `d` (used for `signal.sl_pct or sl_pct`). -/
def orElsePy (o : Option ℚ) (d : ℚ) : ℚ :=
  match o with
  | none => d
  | some x => if x = 0 then d else x

/-- Python `int()` applied to a float: truncation toward zero. -/
def pyInt (q : ℚ) : ℤ :=
  if 0 ≤ q then ⌊q⌋ else ⌈q⌉

/-- Python `abs()` on a float. -/
def pyAbs (q : ℚ) : ℚ :=
  if q < 0 then -q else q

/-- The `exit_reason` strings written by `run_backtest`. -/
inductive ExitReason where
  | stop_loss
  | take_profit
  | signal
  | end_of_backtest
  deriving DecidableEq, Repr

/-- The `Position` dataclass from `bot/backtest/engine.py`.  The engine is
modelled for one symbol, so the `symbol` field is dropped. -/
structure Position where
  side : Side
  entry_time : ℕ
  entry_price : ℚ
  shares : ℤ
  stop_loss : Option ℚ := none
  take_profit : Option ℚ := none
  deriving DecidableEq, Repr

/-- The `Trade` dataclass from `bot/backtest/engine.py` (single symbol). -/
structure Trade where
  side : Side
  entry_time : ℕ
  exit_time : ℕ
  entry_price : ℚ
  exit_price : ℚ
  shares : ℤ
  pnl : ℚ
  pnl_pct : ℚ
  exit_reason : ExitReason
  deriving DecidableEq, Repr

/-- The risk settings extracted at the top of `run_backtest`
(engine.py lines 168-170), already divided by 100 into fractions. -/
structure BtSettings where
  risk_pct : ℚ
  sl_pct : ℚ
  tp_pct : ℚ
  deriving DecidableEq, Repr

/-- The mutable state of the `run_backtest` loop for one symbol: `cash`,
the `positions` entry for the symbol, the `trades` list and
`last_bar_timestamp`. -/
structure BtState where
  cash : ℚ
  position : Option Position := none
  trades : List Trade := []
  last_bar_timestamp : Option ℕ := none
  deriving DecidableEq, Repr

/-- Realized pnl of a close: long `(exit-entry)*qty`, short
`(entry-exit)*qty` (engine.py lines 216-219 and analogues). -/
def closePnl (side : Side) (entryPrice exitPrice : ℚ) (shares : ℤ) : ℚ :=
  match side with
  | .long => (exitPrice - entryPrice) * (shares : ℚ)
  | .short => (entryPrice - exitPrice) * (shares : ℚ)

/-- The stop-loss / take-profit check at the top of the per-bar loop of
`run_backtest` (engine.py lines 200-293).  The take-profit branch
faithfully reproduces the second, unconditional
`cash += exit_price * pos.shares` at line 270 that follows the
side-dependent cash flow of lines 263-267. -/
def guardPhase (st : BtState) (bar : Bar) : BtState :=
  match st.position with
  | none => st
  | some pos =>
    let hit_sl :=
      match pos.side with
      | .long => truthy pos.stop_loss && decide (bar.low ≤ pos.stop_loss.getD 0)
      | .short => truthy pos.stop_loss && decide (pos.stop_loss.getD 0 ≤ bar.high)
    let hit_tp :=
      match pos.side with
      | .long => truthy pos.take_profit && decide (pos.take_profit.getD 0 ≤ bar.high)
      | .short => truthy pos.take_profit && decide (bar.low ≤ pos.take_profit.getD 0)
    if hit_sl then
      let exitPrice := pos.stop_loss.getD 0
      let pnl := closePnl pos.side pos.entry_price exitPrice pos.shares
      let pnl_pct := pnl / (pos.entry_price * (pos.shares : ℚ)) * 100
      let cash' :=
        match pos.side with
        | .short => st.cash - exitPrice * (pos.shares : ℚ)
        | .long => st.cash + exitPrice * (pos.shares : ℚ)
      { st with
          cash := cash'
          position := none
          trades := st.trades ++ [⟨pos.side, pos.entry_time, bar.timestamp,
            pos.entry_price, exitPrice, pos.shares, pnl, pnl_pct, .stop_loss⟩] }
    else if hit_tp then
      let exitPrice := pos.take_profit.getD 0
      let pnl := closePnl pos.side pos.entry_price exitPrice pos.shares
      let pnl_pct := pnl / (pos.entry_price * (pos.shares : ℚ)) * 100
      let cash1 :=
        match pos.side with
        | .short => st.cash - exitPrice * (pos.shares : ℚ)
        | .long => st.cash + exitPrice * (pos.shares : ℚ)
      let cash2 := cash1 + exitPrice * (pos.shares : ℚ)
      { st with
          cash := cash2
          position := none
          trades := st.trades ++ [⟨pos.side, pos.entry_time, bar.timestamp,
            pos.entry_price, exitPrice, pos.shares, pnl, pnl_pct, .take_profit⟩] }
    else st

/-- The signal handling of one bar (`run_backtest`, engine.py lines
302-423) for a single symbol.  With one symbol the equity sum over open
positions is exactly `cash` on the entry branches, which only run when no
position is held on the symbol. -/
def signalPhase (settings : BtSettings) (st : BtState) (bar : Bar)
    (signal : Option Signal) : BtState :=
  match signal with
  | none => st
  | some sig =>
    match sig.type with
    | .flat => st
    | .buy =>
      match st.position with
      | some pos =>
        match pos.side with
        | .short =>
          let exitPrice := bar.close
          let pnl := (pos.entry_price - exitPrice) * (pos.shares : ℚ)
          let pnl_pct := pnl / (pos.entry_price * (pos.shares : ℚ)) * 100
          { st with
              cash := st.cash - exitPrice * (pos.shares : ℚ)
              position := none
              trades := st.trades ++ [⟨.short, pos.entry_time, bar.timestamp,
                pos.entry_price, exitPrice, pos.shares, pnl, pnl_pct, .signal⟩] }
        | .long => st
      | none =>
        let current_equity := st.cash
        let position_value := current_equity * settings.risk_pct
        let shares := pyInt (position_value / bar.close)
        if 0 < shares ∧ (shares : ℚ) * bar.close ≤ st.cash then
          { st with
              cash := st.cash - (shares : ℚ) * bar.close
              position := some ⟨.long, bar.timestamp, bar.close, shares,
                some (bar.close * (1 - orElsePy sig.sl_pct settings.sl_pct)),
                some (bar.close * (1 + orElsePy sig.tp_pct settings.tp_pct))⟩ }
        else st
    | .sell =>
      match st.position with
      | some pos =>
        match pos.side with
        | .long =>
          let exitPrice := bar.close
          let pnl := (exitPrice - pos.entry_price) * (pos.shares : ℚ)
          let pnl_pct := pnl / (pos.entry_price * (pos.shares : ℚ)) * 100
          { st with
              cash := st.cash + exitPrice * (pos.shares : ℚ)
              position := none
              trades := st.trades ++ [⟨.long, pos.entry_time, bar.timestamp,
                pos.entry_price, exitPrice, pos.shares, pnl, pnl_pct, .signal⟩] }
        | .short => st
      | none =>
        let current_equity := st.cash
        let position_value := current_equity * settings.risk_pct
        let shares := pyInt (position_value / bar.close)
        if 0 < shares then
          { st with
              cash := st.cash + (shares : ℚ) * bar.close
              position := some ⟨.short, bar.timestamp, bar.close, shares,
                some (bar.close * (1 + orElsePy sig.sl_pct settings.sl_pct)),
                some (bar.close * (1 - orElsePy sig.tp_pct settings.tp_pct))⟩ }
        else st

/-- One bar of the `run_backtest` loop: record `last_bar_timestamp`
(engine.py line 198), run the stop/target check (lines 200-293), then
handle the signal that the policy call produced (lines 302-423). -/
def btStep (settings : BtSettings) (st : BtState) (bar : Bar)
    (signal : Option Signal) : BtState :=
  signalPhase settings
    (guardPhase { st with last_bar_timestamp := some bar.timestamp } bar) bar signal

/-- The observable behaviour of a deterministic policy over a bar
sequence: for bar index `i` its `on_bar` either raises (`Except.error`) or
returns an optional signal. -/
def Policy : Type := ℕ → Bar → Except Unit (Option Signal)

/-- engine.py lines 296-300: `strategy.on_bar` is wrapped in try/except and
an exception is treated as no signal. -/
def callPolicy (pol : Policy) (i : ℕ) (bar : Bar) : Option Signal :=
  match pol i bar with
  | .error _ => none
  | .ok s => s

/-- A policy with every raising `on_bar` outcome replaced by a clean
no-signal return. -/
def sanitizePolicy (pol : Policy) : Policy :=
  fun i bar => .ok (callPolicy pol i bar)

/-- The per-symbol bar loop of `run_backtest` (engine.py lines 184-435),
starting at bar index `i`. -/
def btRun (settings : BtSettings) (pol : Policy) :
    List Bar → ℕ → BtState → BtState
  | [], _, st => st
  | bar :: rest, i, st =>
      btRun settings pol rest (i + 1)
        (btStep settings st bar (callPolicy pol i bar))

/-- The end-of-backtest cleanup (engine.py lines 437-457): a still-open
position is closed at its own entry price with zero pnl; `nowTs` models
`datetime.now(timezone.utc)` and is consulted only when no bar was
processed. -/
def btCleanup (nowTs : ℕ) (st : BtState) : BtState :=
  match st.position with
  | none => st
  | some pos =>
    { st with
        cash := st.cash + pos.entry_price * (pos.shares : ℚ)
        position := none
        trades := st.trades ++ [⟨pos.side, pos.entry_time,
          st.last_bar_timestamp.getD nowTs, pos.entry_price, pos.entry_price,
          pos.shares, 0, 0, .end_of_backtest⟩] }

/-- `run_backtest` for one symbol: the bar loop followed by the cleanup. -/
def run_backtest (settings : BtSettings) (pol : Policy) (startingCash : ℚ)
    (bars : List Bar) (nowTs : ℕ) : BtState :=
  btCleanup nowTs (btRun settings pol bars 0 ⟨startingCash, none, [], none⟩)

/-- Sum of realized pnl over a trade list. -/
def totalPnl (trades : List Trade) : ℚ :=
  (trades.map Trade.pnl).sum

/-- Claim C1's notion of equity: starting cash plus realized pnl plus
unrealized pnl of the open position at the current price. -/
def impliedEquity (startingCash : ℚ) (st : BtState) (price : ℚ) : ℚ :=
  startingCash + totalPnl st.trades +
    (match st.position with
     | none => 0
     | some pos => closePnl pos.side pos.entry_price price pos.shares)

/-- The ledger side of the claimed invariant: cash plus the market value of
the open position at the current price. -/
def ledgerValue (st : BtState) (price : ℚ) : ℚ :=
  st.cash +
    (match st.position with
     | none => 0
     | some pos => (pos.shares : ℚ) * price)

/-- The position-sizing rule exactly as the specification words it, one
formula for both modes: `qty = floor(riskFraction * equity /
(price * stopFraction))`, minimum 1 share. -/
def specQty (riskFraction equity price stopFraction : ℚ) : ℤ :=
  max 1 ⌊riskFraction * equity / (price * stopFraction)⌋

/-- A position entry of the live loop's `positions[symbol][strategy_id]`
dict (`Controller._run_live`): side `"BUY"` maps to `long`, `"SELL"` to
`short`.  The `strategy_obj` reference is modelled by keying the response
function on the strategy id. -/
structure LivePos where
  side : Side
  qty : ℤ
  entry_price : ℚ
  sl : ℚ
  tp : ℚ
  strategy_name : String
  priority : ℕ
  deriving DecidableEq, Repr

/-- Close reasons logged by the live loop. -/
inductive LiveCloseReason where
  | strategyExit
  | guardStopLoss
  | guardTakeProfit
  deriving DecidableEq, Repr

/-- A close submitted by the live loop: strategy id, reason, exit price
and quantity. -/
structure LiveEvent where
  strategy_id : String
  reason : LiveCloseReason
  price : ℚ
  qty : ℤ
  deriving DecidableEq, Repr

/-- The observable behaviour of the strategy objects on the current bar:
each strategy id's `on_bar` either raises or returns an optional signal. -/
def LiveResp : Type := String → Except Unit (Option Signal)

/-- A response map with every raising `on_bar` replaced by a clean
no-signal return. -/
def sanitizeResp (resp : LiveResp) : LiveResp :=
  fun sid => .ok (match resp sid with | .error _ => none | .ok s => s)

/-- Does a signal of this type close a position of this side?
(controller.py lines 346-347). -/
def isExitSignal (posSide : Side) (t : SignalType) : Bool :=
  match posSide, t with
  | .long, .sell => true
  | .short, .buy => true
  | _, _ => false

/-- The strategy-managed exit pass of the live loop (controller.py lines
330-393): for every open lot on the symbol, call the owning strategy's
`on_bar`; an opposite-side signal closes the lot at the bar close.  A
raising `on_bar` is caught and the lot is kept (lines 392-393). -/
def strategyExitPass (resp : LiveResp) (c : ℚ) :
    List (String × LivePos) → List (String × LivePos) × List LiveEvent
  | [] => ([], [])
  | (sid, pos) :: rest =>
    let res := strategyExitPass resp c rest
    match resp sid with
    | .error _ => ((sid, pos) :: res.1, res.2)
    | .ok none => ((sid, pos) :: res.1, res.2)
    | .ok (some sig) =>
      if sig.type = .flat then ((sid, pos) :: res.1, res.2)
      else if isExitSignal pos.side sig.type then
        (res.1, ⟨sid, .strategyExit, c, pos.qty⟩ :: res.2)
      else ((sid, pos) :: res.1, res.2)

/-- The broker SL/TP guardrail pass of the live loop (controller.py lines
395-445), run on the positions that survived the strategy-exit pass. -/
def guardrailPass (l h : ℚ) :
    List (String × LivePos) → List (String × LivePos) × List LiveEvent
  | [] => ([], [])
  | (sid, pos) :: rest =>
    let res := guardrailPass l h rest
    match pos.side with
    | .long =>
      if l ≤ pos.sl then (res.1, ⟨sid, .guardStopLoss, pos.sl, pos.qty⟩ :: res.2)
      else if pos.tp ≤ h then (res.1, ⟨sid, .guardTakeProfit, pos.tp, pos.qty⟩ :: res.2)
      else ((sid, pos) :: res.1, res.2)
    | .short =>
      if pos.sl ≤ h then (res.1, ⟨sid, .guardStopLoss, pos.sl, pos.qty⟩ :: res.2)
      else if l ≤ pos.tp then (res.1, ⟨sid, .guardTakeProfit, pos.tp, pos.qty⟩ :: res.2)
      else ((sid, pos) :: res.1, res.2)

/-- A live bar event, carrying its Eastern wall-clock hour/minute. -/
structure LiveBar where
  eastHour : ℕ
  eastMinute : ℕ
  h : ℚ
  l : ℚ
  c : ℚ
  deriving DecidableEq, Repr

/-- The exit portion of one dequeued live bar: strategy-managed exits
first (controller.py line 330), then the guardrails (line 395). -/
def liveExitThenGuard (resp : LiveResp) (bar : LiveBar)
    (positions : List (String × LivePos)) :
    List (String × LivePos) × List LiveEvent :=
  let r1 := strategyExitPass resp bar.c positions
  let r2 := guardrailPass bar.l bar.h r1.1
  (r2.1, r1.2 ++ r2.2)

/-- A `StrategySlot` (from `bot/state.py`) as the live entry pass consumes
it: the trading window is in minutes of the Eastern day. -/
structure Slot where
  name : String
  priority : ℕ
  startMin : ℕ
  endMin : ℕ
  lunch_skip : Option Bool := none
  risk_percent : Option ℚ := none
  sl_percent : Option ℚ := none
  tp_percent : Option ℚ := none
  deriving DecidableEq, Repr

/-- `strategy_id = f"{s.name}_P{s.priority}"` (controller.py line 476). -/
def strategyId (s : Slot) : String :=
  s.name ++ "_P" ++ toString s.priority

/-- `_in_window_east` (controller.py lines 34-39) on minutes of the day. -/
def inWindowEast (t a b : ℕ) : Bool :=
  if a ≤ b then a ≤ t && t ≤ b else a ≤ t || t ≤ b

/-- Insertion into a priority-sorted slot list. -/
def insertSlot (s : Slot) : List Slot → List Slot
  | [] => [s]
  | t :: ts => if s.priority ≤ t.priority then s :: t :: ts else t :: insertSlot s ts

/-- `enabled_slots.sort(key=lambda s: s.priority)` (controller.py line
234). -/
def sortSlots (l : List Slot) : List Slot :=
  l.foldr insertSlot []

/-- The multi-slot entry pass of the live loop (controller.py lines
473-584) for one symbol.  Returns the updated positions and the list of
strategy ids whose `on_bar` was invoked; the first slot that produces a
valid entry opens a position and stops the scan (the `break` at line 581).
A slot holding a position on the symbol, or outside its window, is skipped
without invoking its policy; a raising `on_bar` is caught and treated as
no signal (lines 486-489).  `equity` models
`self._adapter.get_account_equity()` and order submission succeeds. -/
def liveEntryPass (resp : LiveResp) (bar : LiveBar) (equity : ℚ)
    (positions : List (String × LivePos)) :
    List Slot → List (String × LivePos) × List String
  | [] => (positions, [])
  | s :: rest =>
    let sid := strategyId s
    if (positions.lookup sid).isSome then
      liveEntryPass resp bar equity positions rest
    else if !(inWindowEast (bar.eastHour * 60 + bar.eastMinute) s.startMin s.endMin) then
      liveEntryPass resp bar equity positions rest
    else
      let withCall := fun (res : List (String × LivePos) × List String) =>
        (res.1, sid :: res.2)
      match resp sid with
      | .error _ => withCall (liveEntryPass resp bar equity positions rest)
      | .ok none => withCall (liveEntryPass resp bar equity positions rest)
      | .ok (some sig) =>
        if sig.type = .flat then withCall (liveEntryPass resp bar equity positions rest)
        else if (s.lunch_skip.getD false) && bar.eastHour = 12 then
          withCall (liveEntryPass resp bar equity positions rest)
        else
          let risk_fraction := s.risk_percent.getD 1 / 100
          let sl_fraction := s.sl_percent.getD 1 / 100
          let tp_fraction := s.tp_percent.getD 2 / 100
          if 0 < sl_fraction then
            let qty := max 1 (pyInt (risk_fraction * equity / (bar.c * sl_fraction)))
            let sl := if sig.type = .buy then bar.c * (1 - sl_fraction)
                      else bar.c * (1 + sl_fraction)
            let tp := if sig.type = .buy then bar.c * (1 + tp_fraction)
                      else bar.c * (1 - tp_fraction)
            let side := if sig.type = .buy then Side.long else Side.short
            (positions ++ [(sid, ⟨side, qty, bar.c, sl, tp, s.name, s.priority⟩)], [sid])
          else withCall (liveEntryPass resp bar equity positions rest)

/-- `trade_direction` of the gap-and-go policy. -/
inductive TradeDirection where
  | long_only
  | short_only
  | both
  deriving DecidableEq, Repr

/-- `trade_direction in ["long_only", "both"]`. -/
def TradeDirection.allowsLong : TradeDirection → Bool
  | .long_only => true
  | .both => true
  | .short_only => false

/-- `trade_direction in ["short_only", "both"]`. -/
def TradeDirection.allowsShort : TradeDirection → Bool
  | .short_only => true
  | .both => true
  | .long_only => false

/-- Constructor parameters of `GapAndGo` (gap_and_go.py lines 26-73) with
their default values.  `max_spread` is omitted: the spread filter needs
`bar.bid`/`bar.ask`, which the `Bar` entity never carries, so the
`hasattr` test at line 311 is always false. -/
structure GagParams where
  min_gap_pct : ℚ := 2
  max_gap_pct : ℚ := 35
  min_price : ℚ := 2
  max_price : ℚ := 20
  min_premarket_vol : ℚ := 50000
  confirm_bars : ℕ := 2
  volume_surge_factor : ℚ := 6 / 5
  allow_multiple_entries : Bool := false
  trade_cutoff_minute : ℤ := 30
  atr_len : ℕ := 10
  atr_stop_mult : ℚ := 9 / 5
  trail_floor_mult : ℚ := 4 / 5
  vwap_crack_bars : ℕ := 2
  exit_time_hour : ℕ := 10
  exit_time_minute : ℕ := 0
  trade_direction : TradeDirection := .both
  deriving DecidableEq, Repr

/-- A bar as the gap-and-go policy sees it, carrying its Eastern
wall-clock fields (trading-day index, hour, minute); the pytz conversion
of `_get_eastern_time` is outside the model. -/
structure GagBar where
  date : ℕ
  hour : ℕ
  minute : ℕ
  timestamp : ℕ
  open_ : ℚ
  high : ℚ
  low : ℚ
  close : ℚ
  volume : ℚ
  deriving DecidableEq, Repr

/-- Minutes of the Eastern day of a bar. -/
def GagBar.minutesOfDay (b : GagBar) : ℕ :=
  b.hour * 60 + b.minute

/-- `_is_premarket`: 04:00 ≤ t < 09:30 Eastern. -/
def isPremarket (b : GagBar) : Bool :=
  240 ≤ b.minutesOfDay && b.minutesOfDay < 570

/-- `_is_market_hours`: 09:30 ≤ t ≤ 16:00 Eastern. -/
def isMarketHours (b : GagBar) : Bool :=
  570 ≤ b.minutesOfDay && b.minutesOfDay ≤ 960

/-- `_should_exit_time`: at or after the configured exit time. -/
def shouldExitTime (p : GagParams) (b : GagBar) : Bool :=
  p.exit_time_hour * 60 + p.exit_time_minute ≤ b.minutesOfDay

/-- `(eastern_time.hour - 9) * 60 + (eastern_time.minute - 30)`, a signed
quantity in Python. -/
def minutesSinceOpen (b : GagBar) : ℤ :=
  ((b.hour : ℤ) - 9) * 60 + ((b.minute : ℤ) - 30)

/-- Per-symbol state of the gap-and-go policy (one symbol, so the
per-symbol dicts become plain fields).  `premarket_high = none` models the
`float('-inf')` reset value and `premarket_low = none` the `float('inf')`
one; both are always present after `_reset_daily_state` has run. -/
structure GagState where
  prev_close : Option ℚ := none
  premarket_high : Option ℚ := none
  premarket_low : Option ℚ := none
  premarket_volume : ℚ := 0
  first_break_done : Bool := false
  in_position : Bool := false
  position_direction : Option Side := none
  entry_time : Option ℕ := none
  entry_price : Option ℚ := none
  initial_stop : Option ℚ := none
  r_value : Option ℚ := none
  breakeven_locked : Bool := false
  breakeven_lock_time : Option ℕ := none
  breakout_confirm_count : ℕ := 0
  session_gap_pct : Option ℚ := none
  session_open : Option ℚ := none
  vwap_crack_count : ℕ := 0
  atr_buffer : List ℚ := []
  atr : ℚ := 0
  last_close : Option ℚ := none
  vwap_sum_pv : ℚ := 0
  vwap_sum_v : ℚ := 0
  vwap : ℚ := 0
  volume_samples : List ℚ := []
  avg_volume : ℚ := 0
  current_date : Option ℕ := none
  session_start_logged : Bool := false
  deriving DecidableEq, Repr

/-- Append to a `deque(maxlen=cap)`: the oldest element is dropped from
the left when the capacity is exceeded. -/
def pushCapped (cap : ℕ) (l : List ℚ) (x : ℚ) : List ℚ :=
  let l2 := l ++ [x]
  l2.drop (l2.length - cap)

/-- `_reset_daily_state` (gap_and_go.py lines 194-241); note that
`prev_close` is deliberately not reset. -/
def resetDailyState (s : GagState) (d : ℕ) : GagState :=
  if s.current_date = some d then s
  else
    { s with
        current_date := some d
        premarket_high := none
        premarket_low := none
        premarket_volume := 0
        first_break_done := false
        in_position := false
        position_direction := none
        entry_time := none
        entry_price := none
        initial_stop := none
        r_value := none
        breakeven_locked := false
        breakeven_lock_time := none
        breakout_confirm_count := 0
        session_gap_pct := none
        session_open := none
        vwap_crack_count := 0
        atr_buffer := []
        atr := 0
        last_close := none
        vwap_sum_pv := 0
        vwap_sum_v := 0
        vwap := 0
        volume_samples := []
        avg_volume := 0
        session_start_logged := false }

/-- `_update_atr` (gap_and_go.py lines 243-267). -/
def updateAtr (p : GagParams) (s : GagState) (bar : GagBar) : GagState :=
  let prevClose := s.last_close.getD bar.close
  let tr := max (bar.high - bar.low)
    (max (pyAbs (bar.high - prevClose)) (pyAbs (bar.low - prevClose)))
  let buf := pushCapped p.atr_len s.atr_buffer tr
  let atr' := if 0 < buf.length then buf.sum / (buf.length : ℚ)
              else bar.close * (5 / 1000)
  { s with atr_buffer := buf, last_close := some bar.close, atr := atr' }

/-- `_update_vwap` (gap_and_go.py lines 269-277). -/
def updateVwap (s : GagState) (bar : GagBar) : GagState :=
  let typical_price := (bar.high + bar.low + bar.close) / 3
  let pv := s.vwap_sum_pv + typical_price * bar.volume
  let v := s.vwap_sum_v + bar.volume
  { s with
      vwap_sum_pv := pv
      vwap_sum_v := v
      vwap := if 0 < v then pv / v else s.vwap }

/-- `_update_volume_tracking` (gap_and_go.py lines 279-290). -/
def updateVolumeTracking (s : GagState) (bar : GagBar) : GagState :=
  if 5 < minutesSinceOpen bar then
    let samples := pushCapped 100 s.volume_samples bar.volume
    { s with
        volume_samples := samples
        avg_volume := if 0 < samples.length then samples.sum / (samples.length : ℚ)
                      else s.avg_volume }
  else s

/-- `_check_entry_eligibility` (gap_and_go.py lines 292-323) without the
spread filter (no bid/ask on `Bar`) and without scanner data. -/
def checkEntryEligibility (p : GagParams) (s : GagState) (bar : GagBar) : Bool :=
  if bar.close < p.min_price ∨ p.max_price < bar.close then false
  else if s.premarket_volume < p.min_premarket_vol then false
  else if 0 < s.avg_volume ∧ bar.volume < s.avg_volume * p.volume_surge_factor then false
  else true

/-- `_calculate_initial_stop` (gap_and_go.py lines 325-332).  The ATR dict
entry is always present once `_reset_daily_state` has run, so the
`entry_price * 0.005` default of the `.get` never fires here. -/
def calculateInitialStop (p : GagParams) (s : GagState) (entryPrice : ℚ)
    (direction : Side) : ℚ :=
  match direction with
  | .long => entryPrice - p.atr_stop_mult * s.atr
  | .short => entryPrice + p.atr_stop_mult * s.atr

/-- The breakeven buffer of `_update_trailing_stop` (lines 362-366 and
376-380): wider for sub-$10 entries. -/
def beBuffer (entry r atr : ℚ) : ℚ :=
  if entry < 10 then max (3 / 100) (max (3 / 10 * r) (1 / 2 * atr))
  else max (2 / 100) (max (1 / 5 * r) (2 / 5 * atr))

/-- `_update_trailing_stop` (gap_and_go.py lines 334-434).  Mirrors the
source exactly, including that the trailing ratchet at lines 395/404
compares the candidate stop against the local `current_stop` read at line
343 — the value from before a breakeven lock performed in the same call. -/
def updateTrailingStop (p : GagParams) (s : GagState) (bar : GagBar)
    (direction : Side) : GagState × Option ℚ :=
  if !s.in_position then (s, none)
  else
    let entry := s.entry_price
    let current_stop := s.initial_stop
    let atr := s.atr
    let r := s.r_value.getD atr
    if !(truthy entry && truthy current_stop && (s.vwap != 0)) then (s, none)
    else
      let entryV := entry.getD 0
      let stopV := current_stop.getD 0
      let s1 :=
        if !s.breakeven_locked then
          match direction with
          | .long =>
            if entryV + r ≤ bar.close then
              { s with
                  initial_stop := some (entryV + beBuffer entryV r atr)
                  breakeven_locked := true
                  breakeven_lock_time := some bar.timestamp }
            else s
          | .short =>
            if bar.close ≤ entryV - r then
              { s with
                  initial_stop := some (entryV - beBuffer entryV r atr)
                  breakeven_locked := true
                  breakeven_lock_time := some bar.timestamp }
            else s
        else s
      let s2 :=
        match direction with
        | .long =>
          let new_stop := s.vwap - p.trail_floor_mult * atr
          if stopV < new_stop then { s1 with initial_stop := some new_stop } else s1
        | .short =>
          let new_stop := s.vwap + p.trail_floor_mult * atr
          if new_stop < stopV then { s1 with initial_stop := some new_stop } else s1
      let vwap_buffer := max (1 / 2 * atr) (5 / 1000 * bar.close)
      let vwap_crack :=
        match direction with
        | .long => decide (bar.close < s.vwap - vwap_buffer)
        | .short => decide (s.vwap + vwap_buffer < bar.close)
      let s3 :=
        if vwap_crack then { s2 with vwap_crack_count := s2.vwap_crack_count + 1 }
        else { s2 with vwap_crack_count := 0 }
      if p.vwap_crack_bars ≤ s3.vwap_crack_count then (s3, some bar.close)
      else (s3, none)

/-- The long breakout condition (gap_and_go.py lines 619-624):
`offset = max(0.03, 0.0005 * ref)` and `bar.high >= ref + offset and
bar.close >= ref`.  A `none` reference is the `float('-inf')` premarket
high of a day with no premarket bars, for which both float comparisons
are vacuously true. -/
def gagBrokeLong (pmHigh : Option ℚ) (bar : GagBar) : Bool :=
  match pmHigh with
  | none => true
  | some r => decide (r + max (3 / 100) (5 / 10000 * r) ≤ bar.high) &&
      decide (r ≤ bar.close)

/-- The short breakout condition (gap_and_go.py lines 620 and 625-626),
mirrored below the `float('inf')` premarket low. -/
def gagBrokeShort (pmLow : Option ℚ) (bar : GagBar) : Bool :=
  match pmLow with
  | none => true
  | some r => decide (bar.low ≤ r - max (3 / 100) (5 / 10000 * r)) &&
      decide (bar.close ≤ r)

/-- `GapAndGo.on_bar` (gap_and_go.py lines 436-682) for one symbol.
`SessionState` has no `get_prior_close`, so the `hasattr` probe at line
453 always fails and the missing-prev-close fallback is `bar.open`.  The
local ATR recomputed at lines 639-646 feeds only the log message: the
stop at line 648 re-reads `self.atr`, which the model reproduces via
`calculateInitialStop`. -/
def gagOnBar (p : GagParams) (s0 : GagState) (bar : GagBar) :
    GagState × Option Signal :=
  let s := resetDailyState s0 bar.date
  let s :=
    if (match s.prev_close with | none => true | some x => x = 0) &&
        isMarketHours bar then
      { s with prev_close := some bar.open_ }
    else s
  if isPremarket bar then
    ({ s with
        premarket_high :=
          some (match s.premarket_high with | none => bar.high | some x => max x bar.high)
        premarket_low :=
          some (match s.premarket_low with | none => bar.low | some x => min x bar.low)
        premarket_volume := s.premarket_volume + bar.volume }, none)
  else if !(isMarketHours bar) then
    ({ s with prev_close := some bar.close }, none)
  else
    let s := updateAtr p s bar
    let s := updateVwap s bar
    let s := updateVolumeTracking s bar
    let s :=
      if !s.session_start_logged && minutesSinceOpen bar = 0 then
        let prevC := s.prev_close.getD bar.open_
        { s with
            session_gap_pct := some (if 0 < prevC then (bar.open_ - prevC) / prevC * 100 else 0)
            session_open := some bar.open_
            session_start_logged := true }
      else s
    if s.in_position then
      let direction := s.position_direction.getD .long
      let exitSignal : Signal :=
        ⟨match direction with | .long => .sell | .short => .buy, none, none⟩
      if shouldExitTime p bar then
        ({ s with in_position := false, position_direction := none }, some exitSignal)
      else
        let res := updateTrailingStop p s bar direction
        match res.2 with
        | some _ =>
          ({ res.1 with in_position := false, position_direction := none }, some exitSignal)
        | none =>
          let s := res.1
          if truthy s.initial_stop then
            match direction with
            | .long =>
              if bar.low ≤ s.initial_stop.getD 0 then
                ({ s with in_position := false, position_direction := none },
                 some ⟨.sell, none, none⟩)
              else (s, none)
            | .short =>
              if s.initial_stop.getD 0 ≤ bar.high then
                ({ s with in_position := false, position_direction := none },
                 some ⟨.buy, none, none⟩)
              else (s, none)
          else (s, none)
    else
      if p.trade_cutoff_minute < minutesSinceOpen bar then (s, none)
      else if s.first_break_done && !p.allow_multiple_entries then (s, none)
      else if !checkEntryEligibility p s bar then (s, none)
      else
        let prevC := s.prev_close.getD bar.open_
        if prevC ≤ 0 then (s, none)
        else
          let gap := s.session_gap_pct.getD 0
          let is_gap_up := decide (p.min_gap_pct ≤ gap) && decide (gap ≤ p.max_gap_pct)
          let is_gap_down := decide (gap ≤ -p.min_gap_pct) && decide (-p.max_gap_pct ≤ gap)
          let should_trade_long := is_gap_up && p.trade_direction.allowsLong
          let should_trade_short := is_gap_down && p.trade_direction.allowsShort
          if !(should_trade_long || should_trade_short) then (s, none)
          else
            let direction := if should_trade_long then Side.long else Side.short
            let broke :=
              match direction with
              | .long => gagBrokeLong s.premarket_high bar
              | .short => gagBrokeShort s.premarket_low bar
            if broke then
              let s := { s with breakout_confirm_count := s.breakout_confirm_count + 1 }
              if s.breakout_confirm_count < p.confirm_bars then (s, none)
              else
                let initial_stop := calculateInitialStop p s bar.close direction
                let r_value := pyAbs (bar.close - initial_stop)
                if r_value < bar.close * (5 / 1000) then (s, none)
                else
                  ({ s with
                      first_break_done := true
                      in_position := true
                      position_direction := some direction
                      entry_time := some bar.timestamp
                      entry_price := some bar.close
                      initial_stop := some initial_stop
                      r_value := some r_value
                      breakeven_locked := false
                      breakeven_lock_time := none },
                   some ⟨match direction with | .long => .buy | .short => .sell,
                     none, none⟩)
            else (s, none)

/-- All-default gap-and-go construction parameters. -/
def defaultGagParams : GagParams := {}

/-- Backtest settings `risk_percent=1`, `stop_loss_percent=1`,
`take_profit_percent=2` (the defaults of lines 168-170) as fractions. -/
def stdSettings : BtSettings := ⟨1 / 100, 1 / 100, 2 / 100⟩

/-- A policy that buys on the first bar and stays silent afterwards. -/
def buyOncePolicy : Policy := fun i _ =>
  if i = 0 then .ok (some ⟨.buy, none, none⟩) else .ok none

/-- Bars for the C1 evaluation: an entry bar at 100, then a bar whose high
103 touches the take-profit 102 while its low 99.5 spares the stop 99. -/
def c1Bars : List Bar :=
  [⟨0, 100, 100, 100, 100, 0⟩, ⟨1, 100, 103, 199 / 2, 201 / 2, 0⟩]

/-- A policy that buys on bar 0 and emits a SELL exit signal on bar 1. -/
def buyThenSellPolicy : Policy := fun i _ =>
  if i = 0 then .ok (some ⟨.buy, none, none⟩)
  else if i = 1 then .ok (some ⟨.sell, none, none⟩)
  else .ok none

/-- Bars for the C2 evaluation: an entry bar at 100 (stop 99, target 102),
then a bar whose low 98.9 breaches the stop while the policy also emits
its own SELL exit signal. -/
def c2Bars : List Bar :=
  [⟨0, 100, 100, 100, 100, 0⟩, ⟨1, 100, 101, 989 / 10, 201 / 2, 0⟩]

/-- Mid-session gap-and-go state for the C4 evaluation: trading day 0,
prior close 5, stored session gap +10%, premarket high 5, premarket
volume 60000, no position, confirmation count 0. -/
def c4State : GagState :=
  { current_date := some 0
    prev_close := some 5
    premarket_high := some 5
    premarket_low := some 4
    premarket_volume := 60000
    session_gap_pct := some 10
    session_open := some 5
    session_start_logged := true }

/-- 09:33 bar clearing the premarket high 5 by more than the 0.03 offset. -/
def c4Bar1 : GagBar := ⟨0, 9, 33, 33, 5, 26 / 5, 5, 51 / 10, 1000⟩

/-- 09:34 bar back below the premarket high: no breakout on this bar. -/
def c4Bar2 : GagBar := ⟨0, 9, 34, 34, 5, 49 / 10, 47 / 10, 24 / 5, 1000⟩

/-- 09:35 bar clearing the premarket high again. -/
def c4Bar3 : GagBar := ⟨0, 9, 35, 35, 5, 26 / 5, 5, 51 / 10, 1000⟩

/-- Gap-and-go state for the C7 evaluation: an open long entered at 10
with risk unit 1, whose stop has already been trailed up to 10.5 (above
the eventual breakeven level 10.2) while breakeven is not yet locked. -/
def c7State : GagState :=
  { current_date := some 0
    prev_close := some 10
    premarket_high := some 10
    premarket_low := some 9
    premarket_volume := 60000
    session_gap_pct := some 10
    session_open := some 10
    session_start_logged := true
    first_break_done := true
    in_position := true
    position_direction := some .long
    entry_time := some 0
    entry_price := some 10
    initial_stop := some (21 / 2)
    r_value := some 1
    breakeven_locked := false
    atr_buffer := [1 / 2]
    atr := 1 / 2
    last_close := some 11
    vwap_sum_pv := 1010
    vwap_sum_v := 100
    vwap := 101 / 10 }

/-- 09:45 bar for the C7 evaluation: close 11.2 triggers the breakeven
lock (entry 10 + r 1 ≤ 11.2) while the updated VWAP 10.6 keeps the
trailing candidate at 10.2, below the previously trailed stop 10.5. -/
def c7Bar : GagBar := ⟨0, 9, 45, 45, 11, 113 / 10, 54 / 5, 56 / 5, 100⟩

/-- C1: the accounting identity `cash + Σ(position qty × price) == equity`
does not hold after every close: on a long take-profit exit the engine
credits the exit proceeds to cash twice (engine.py line 267 and the
duplicated line 270).  Buying 10 shares at 100 of 100000 starting cash and
exiting at the target 102 leaves cash 101040, while starting cash plus
realized pnl is 100020. -/
theorem c1_accounting_identity_broken_on_take_profit :
    (run_backtest stdSettings buyOncePolicy 100000 c1Bars 999).position = none ∧
    (run_backtest stdSettings buyOncePolicy 100000 c1Bars 999).trades.map Trade.exit_reason =
      [ExitReason.take_profit] ∧
    ledgerValue (run_backtest stdSettings buyOncePolicy 100000 c1Bars 999) (201 / 2) = 101040 ∧
    impliedEquity 100000 (run_backtest stdSettings buyOncePolicy 100000 c1Bars 999) (201 / 2) =
      100020 ∧
    (101040 : ℚ) ≠ 100020 := by
  norm_num [run_backtest, btCleanup, btRun, btStep, guardPhase, signalPhase, callPolicy, pyInt, orElsePy, truthy, closePnl, totalPnl, ledgerValue, impliedEquity, stdSettings, bne_iff_ne, buyOncePolicy, c1Bars]

/-- C2 counterexample: in the backtest replay the guardrail check runs
before the policy's `on_bar`, not after it.  On a bar where the stop 99 is
breached and the policy emits its own SELL exit, the position is closed by
the guardrail (`stop_loss`, not `signal`), and the SELL then opens a fresh
short on the already-closed symbol — impossible under the claimed
policy-first ordering. -/
theorem c2_counterexample_guardrail_before_policy :
    (btRun stdSettings buyThenSellPolicy c2Bars 0 ⟨100000, none, [], none⟩).trades.map
        Trade.exit_reason = [ExitReason.stop_loss] ∧
    (btRun stdSettings buyThenSellPolicy c2Bars 0 ⟨100000, none, [], none⟩).position.map
        Position.side = some Side.short := by
  norm_num [run_backtest, btCleanup, btRun, btStep, guardPhase, signalPhase, callPolicy, pyInt, orElsePy, truthy, closePnl, totalPnl, ledgerValue, impliedEquity, stdSettings, bne_iff_ne, buyThenSellPolicy, c2Bars]

set_option maxHeartbeats 4000000 in
/-- C4: a bar on which the breakout condition fails does not reset
`breakout_confirm_count` (`GapAndGo.on_bar` returns at line 682 without
touching it, unlike the VWAP-crack counter at line 424).  With
`confirm_bars = 2`, a breakout bar, a non-breakout bar and a second
breakout bar still produce the entry signal, although the two breakout
bars are not consecutive. -/
theorem c4_breakout_count_not_reset :
    (gagOnBar defaultGagParams c4State c4Bar1).2 = none ∧
    gagBrokeLong (gagOnBar defaultGagParams c4State c4Bar1).1.premarket_high c4Bar2 = false ∧
    (gagOnBar defaultGagParams (gagOnBar defaultGagParams c4State c4Bar1).1 c4Bar2).2 = none ∧
    (gagOnBar defaultGagParams (gagOnBar defaultGagParams c4State c4Bar1).1
        c4Bar2).1.breakout_confirm_count = 1 ∧
    (gagOnBar defaultGagParams (gagOnBar defaultGagParams (gagOnBar defaultGagParams
        c4State c4Bar1).1 c4Bar2).1 c4Bar3).2 = some ⟨.buy, none, none⟩ := by
  norm_num [gagOnBar, resetDailyState, updateAtr, updateVwap, updateVolumeTracking, checkEntryEligibility, calculateInitialStop, updateTrailingStop, beBuffer, gagBrokeLong, gagBrokeShort, pushCapped, truthy, isPremarket, isMarketHours, shouldExitTime, minutesSinceOpen, GagBar.minutesOfDay, defaultGagParams, TradeDirection.allowsLong, TradeDirection.allowsShort, bne_iff_ne, max_def, min_def, pyAbs, c4State, c4Bar1, c4Bar2, c4Bar3]

set_option maxHeartbeats 4000000 in
/-- C7 counterexample: the stored stop of an open long can decrease from
one `on_bar` call to the next.  With entry 10, risk unit 1 and a stop
already trailed to 10.5, the bar closing at 11.2 fires the breakeven lock,
which overwrites the stop with entry + buffer = 10.2 < 10.5 while the
position stays open. -/
theorem c7_counterexample_breakeven_lock_lowers_stop :
    c7State.initial_stop = some (21 / 2) ∧
    (gagOnBar defaultGagParams c7State c7Bar).1.initial_stop = some (51 / 5) ∧
    (gagOnBar defaultGagParams c7State c7Bar).1.in_position = true ∧
    (gagOnBar defaultGagParams c7State c7Bar).2 = none ∧
    (51 / 5 : ℚ) < 21 / 2 := by
  norm_num [gagOnBar, resetDailyState, updateAtr, updateVwap, updateVolumeTracking, checkEntryEligibility, calculateInitialStop, updateTrailingStop, beBuffer, gagBrokeLong, gagBrokeShort, pushCapped, truthy, isPremarket, isMarketHours, shouldExitTime, minutesSinceOpen, GagBar.minutesOfDay, defaultGagParams, TradeDirection.allowsLong, TradeDirection.allowsShort, bne_iff_ne, max_def, min_def, pyAbs, c7State, c7Bar]

/-- C5 counterexample: the backtest replay does not use the claimed sizing
formula.  With risk 1%, equity = cash = 100000 and price 100, a backtest
BUY entry opens `floor(0.01*100000/100) = 10` shares, while
`floor(riskFraction*equity/(price*stopFraction))` with stop fraction 1%
gives 1000. -/
theorem c5_counterexample_sizing_differs :
    (btStep stdSettings ⟨100000, none, [], none⟩ ⟨0, 100, 100, 100, 100, 0⟩
        (some ⟨.buy, none, none⟩)).position.map Position.shares = some 10 ∧
    specQty (1 / 100) 100000 100 (1 / 100) = 1000 ∧ ((10 : ℤ) ≠ 1000) := by
  norm_num [run_backtest, btCleanup, btRun, btStep, guardPhase, signalPhase, callPolicy, pyInt, orElsePy, truthy, closePnl, totalPnl, ledgerValue, impliedEquity, stdSettings, bne_iff_ne, specQty]

/-- The guard phase never touches `last_bar_timestamp`. -/
theorem guardPhase_last_bar_timestamp (st : BtState) (bar : Bar) :
    (guardPhase st bar).last_bar_timestamp = st.last_bar_timestamp := by
  unfold guardPhase
  rcases h : st.position with _ | pos
  · rfl
  · dsimp only
    split_ifs <;> rfl

/-- The signal phase never touches `last_bar_timestamp`. -/
theorem signalPhase_last_bar_timestamp (settings : BtSettings) (st : BtState)
    (bar : Bar) (sig : Option Signal) :
    (signalPhase settings st bar sig).last_bar_timestamp = st.last_bar_timestamp := by
  unfold signalPhase
  rcases sig with _ | s
  · rfl
  · rcases s with ⟨t, slp, tpp⟩
    cases t <;> rcases h : st.position with _ | pos <;> dsimp only <;>
      first
        | rfl
        | (split_ifs <;> rfl)
        | (cases pos.side <;> rfl)

/-- After a bar step, `last_bar_timestamp` is that bar's timestamp. -/
theorem btStep_last_bar_timestamp (settings : BtSettings) (st : BtState)
    (bar : Bar) (sig : Option Signal) :
    (btStep settings st bar sig).last_bar_timestamp = some bar.timestamp := by
  unfold btStep
  rw [signalPhase_last_bar_timestamp, guardPhase_last_bar_timestamp]

/-- After a nonempty run, `last_bar_timestamp` is the timestamp of the
last processed bar. -/
theorem btRun_last_bar_timestamp (settings : BtSettings) (pol : Policy) :
    ∀ (bars : List Bar) (h : bars ≠ []) (i : ℕ) (st : BtState),
      (btRun settings pol bars i st).last_bar_timestamp =
        some (bars.getLast h).timestamp := by
  intro bars
  induction bars with
  | nil => intro h; exact absurd rfl h
  | cons b rest ih =>
    intro h i st
    cases rest with
    | nil =>
      simpa [btRun] using btStep_last_bar_timestamp settings st b (callPolicy pol i b)
    | cons c cs =>
      rw [List.getLast_cons (by simp)]
      exact ih (by simp) (i + 1) (btStep settings st b (callPolicy pol i b))

/-- C3: when one bar touches both the stop and the target of an open
position, the guardrail check closes at the stop price with reason
`stop_loss` and pnl `(stop - entry) * qty` — the `elif` at engine.py line
252 gives stop-loss precedence over take-profit; shorts mirror with
high/low swapped. -/
theorem c3_stop_loss_precedence :
    (∀ (st : BtState) (bar : Bar) (pos : Position) (s t : ℚ),
      st.position = some pos → pos.side = .long →
      pos.stop_loss = some s → s ≠ 0 →
      pos.take_profit = some t → t ≠ 0 →
      bar.low ≤ s → t ≤ bar.high →
      guardPhase st bar =
        { st with
            cash := st.cash + s * (pos.shares : ℚ)
            position := none
            trades := st.trades ++ [⟨.long, pos.entry_time, bar.timestamp,
              pos.entry_price, s, pos.shares,
              (s - pos.entry_price) * (pos.shares : ℚ),
              (s - pos.entry_price) * (pos.shares : ℚ) /
                (pos.entry_price * (pos.shares : ℚ)) * 100, .stop_loss⟩] }) ∧
    (∀ (st : BtState) (bar : Bar) (pos : Position) (s t : ℚ),
      st.position = some pos → pos.side = .short →
      pos.stop_loss = some s → s ≠ 0 →
      pos.take_profit = some t → t ≠ 0 →
      s ≤ bar.high → bar.low ≤ t →
      guardPhase st bar =
        { st with
            cash := st.cash - s * (pos.shares : ℚ)
            position := none
            trades := st.trades ++ [⟨.short, pos.entry_time, bar.timestamp,
              pos.entry_price, s, pos.shares,
              (pos.entry_price - s) * (pos.shares : ℚ),
              (pos.entry_price - s) * (pos.shares : ℚ) /
                (pos.entry_price * (pos.shares : ℚ)) * 100, .stop_loss⟩] }) := by
  constructor
  · intro st bar pos s t hpos hside hsl htp hs ht hls hth
    simp [guardPhase, hpos, hside, hsl, htp, truthy, closePnl, hs, hls]
  · intro st bar pos s t hpos hside hsl htp hs ht hhs hlt
    simp [guardPhase, hpos, hside, hsl, htp, truthy, closePnl, hs, hhs]

/-- Witness for C3 at entry 100, stop 99, target 102, a bar with low 98.5
and high 103 (long), and the short mirror at entry 100, stop 101,
target 98. -/
theorem c3_stop_loss_precedence_witness :
    guardPhase ⟨1000, some ⟨.long, 0, 100, 10, some 99, some 102⟩, [], none⟩
        ⟨5, 100, 103, 197 / 2, 100, 0⟩ =
      { cash := 1000 + 99 * ((10 : ℤ) : ℚ), position := none,
        trades := [⟨.long, 0, 5, 100, 99, 10, (99 - 100) * ((10 : ℤ) : ℚ),
          (99 - 100) * ((10 : ℤ) : ℚ) / (100 * ((10 : ℤ) : ℚ)) * 100, .stop_loss⟩],
        last_bar_timestamp := none } ∧
    guardPhase ⟨1000, some ⟨.short, 0, 100, 10, some 101, some 98⟩, [], none⟩
        ⟨5, 100, 102, 97, 100, 0⟩ =
      { cash := 1000 - 101 * ((10 : ℤ) : ℚ), position := none,
        trades := [⟨.short, 0, 5, 100, 101, 10, (100 - 101) * ((10 : ℤ) : ℚ),
          (100 - 101) * ((10 : ℤ) : ℚ) / (100 * ((10 : ℤ) : ℚ)) * 100, .stop_loss⟩],
        last_bar_timestamp := none } :=
  ⟨c3_stop_loss_precedence.1 _ _ _ 99 102 rfl rfl rfl (by norm_num) rfl (by norm_num)
      (by norm_num) (by norm_num),
   c3_stop_loss_precedence.2 _ _ _ 101 98 rfl rfl rfl (by norm_num) rfl (by norm_num)
      (by norm_num) (by norm_num)⟩

/-- C10: in the backtest engine a BUY signal while a long is already open,
and a SELL signal while a short is already open, are complete no-ops for
the signal handling: the state (cash, position, trades) is unchanged. -/
theorem c10_same_side_signal_is_noop :
    (∀ (settings : BtSettings) (st : BtState) (bar : Bar) (sig : Signal) (pos : Position),
      sig.type = .buy → st.position = some pos → pos.side = .long →
      signalPhase settings st bar (some sig) = st) ∧
    (∀ (settings : BtSettings) (st : BtState) (bar : Bar) (sig : Signal) (pos : Position),
      sig.type = .sell → st.position = some pos → pos.side = .short →
      signalPhase settings st bar (some sig) = st) := by
  constructor
  · intro settings st bar sig pos htype hpos hside
    simp [signalPhase, htype, hpos, hside]
  · intro settings st bar sig pos htype hpos hside
    simp [signalPhase, htype, hpos, hside]

/-- Witness for C10: a BUY against an open long and a SELL against an open
short leave the concrete state untouched. -/
theorem c10_same_side_signal_is_noop_witness :
    signalPhase stdSettings ⟨1000, some ⟨.long, 0, 100, 10, some 99, some 102⟩, [], none⟩
        ⟨5, 100, 101, 99, 100, 0⟩ (some ⟨.buy, none, none⟩) =
      ⟨1000, some ⟨.long, 0, 100, 10, some 99, some 102⟩, [], none⟩ ∧
    signalPhase stdSettings ⟨1000, some ⟨.short, 0, 100, 10, some 101, some 98⟩, [], none⟩
        ⟨5, 100, 101, 99, 100, 0⟩ (some ⟨.sell, none, none⟩) =
      ⟨1000, some ⟨.short, 0, 100, 10, some 101, some 98⟩, [], none⟩ :=
  ⟨c10_same_side_signal_is_noop.1 stdSettings _ _ _ _ rfl rfl rfl,
   c10_same_side_signal_is_noop.2 stdSettings _ _ _ _ rfl rfl rfl⟩

/-- C9: a raising `on_bar` is indistinguishable from one that returns no
signal — in the backtest loop (engine.py lines 296-300), in the live
strategy-exit pass (controller.py lines 392-393) and in the live entry
pass (controller.py lines 486-489); the run continues identically. -/
theorem c9_policy_exception_treated_as_no_signal :
    (∀ (settings : BtSettings) (pol : Policy) (bars : List Bar) (i : ℕ) (st : BtState),
      btRun settings (sanitizePolicy pol) bars i st = btRun settings pol bars i st) ∧
    (∀ (resp : LiveResp) (c : ℚ) (positions : List (String × LivePos)),
      strategyExitPass (sanitizeResp resp) c positions = strategyExitPass resp c positions) ∧
    (∀ (resp : LiveResp) (bar : LiveBar) (equity : ℚ)
        (positions : List (String × LivePos)) (slots : List Slot),
      liveEntryPass (sanitizeResp resp) bar equity positions slots =
        liveEntryPass resp bar equity positions slots) := by
  refine ⟨?_, ?_, ?_⟩
  · intro settings pol bars
    induction bars with
    | nil => intro i st; rfl
    | cons b rest ih =>
      intro i st
      have hcall : callPolicy (sanitizePolicy pol) i b = callPolicy pol i b := rfl
      simp only [btRun, hcall]
      exact ih (i + 1) _
  · intro resp c positions
    induction positions with
    | nil => rfl
    | cons p rest ih =>
      obtain ⟨sid, pos⟩ := p
      simp only [strategyExitPass, ih, sanitizeResp]
      rcases hr : resp sid with e | s
      · rfl
      · rcases s with _ | sig
        · rfl
        · rfl
  · intro resp bar equity positions slots
    induction slots with
    | nil => rfl
    | cons s rest ih =>
      simp only [liveEntryPass, ih, sanitizeResp]
      rcases hr : resp (strategyId s) with e | sg
      · rfl
      · rcases sg with _ | sig
        · rfl
        · rfl

/-- C6: a position still open when the bars are exhausted is force-closed
at its own entry price with pnl 0, pnl_pct 0, reason `end_of_backtest` and
exit time equal to the timestamp of the last processed bar — the
synthetic `nowTs` is never used when at least one bar was processed. -/
theorem c6_end_of_backtest_force_close :
    ∀ (settings : BtSettings) (pol : Policy) (startingCash : ℚ) (bars : List Bar)
      (nowTs : ℕ) (h : bars ≠ []) (pos : Position),
      (btRun settings pol bars 0 ⟨startingCash, none, [], none⟩).position = some pos →
      run_backtest settings pol startingCash bars nowTs =
        { btRun settings pol bars 0 ⟨startingCash, none, [], none⟩ with
            cash := (btRun settings pol bars 0 ⟨startingCash, none, [], none⟩).cash +
              pos.entry_price * (pos.shares : ℚ)
            position := none
            trades := (btRun settings pol bars 0 ⟨startingCash, none, [], none⟩).trades ++
              [⟨pos.side, pos.entry_time, (bars.getLast h).timestamp, pos.entry_price,
                pos.entry_price, pos.shares, 0, 0, .end_of_backtest⟩] } := by
  intro settings pol startingCash bars nowTs h pos hpos
  unfold run_backtest btCleanup
  rw [hpos]
  simp [btRun_last_bar_timestamp settings pol bars h]

/-- Witness for C6: one bar at timestamp 7, a BUY entry left open, closed
by the cleanup at entry price 100 with exit time 7 even though the
synthetic clock reads 42. -/
theorem c6_end_of_backtest_force_close_witness :
    run_backtest stdSettings buyOncePolicy 100000 [⟨7, 100, 100, 100, 100, 0⟩] 42 =
      { btRun stdSettings buyOncePolicy [⟨7, 100, 100, 100, 100, 0⟩] 0
            ⟨100000, none, [], none⟩ with
          cash := (btRun stdSettings buyOncePolicy [⟨7, 100, 100, 100, 100, 0⟩] 0
            ⟨100000, none, [], none⟩).cash + 100 * ((10 : ℤ) : ℚ)
          position := none
          trades := (btRun stdSettings buyOncePolicy [⟨7, 100, 100, 100, 100, 0⟩] 0
              ⟨100000, none, [], none⟩).trades ++
            [⟨.long, 7, 7, 100, 100, 10, 0, 0, .end_of_backtest⟩] } :=
  c6_end_of_backtest_force_close stdSettings buyOncePolicy 100000
    [⟨7, 100, 100, 100, 100, 0⟩] 42 (List.cons_ne_nil _ _)
    ⟨.long, 7, 100, 10, some 99, some 102⟩
    (by norm_num [btRun, btStep, guardPhase, signalPhase, callPolicy, buyOncePolicy,
      stdSettings, pyInt, orElsePy, truthy])

/-- C2 (amended): the two modes order the checks differently.  In the live
loop the strategy-managed exit pass runs before the guardrail pass for the
same position and bar, so the policy's exit wins even when the stop
condition also holds on that bar.  In the backtest replay the guardrail
check runs first, before the policy's `on_bar`, and the policy's signal is
then applied to the post-guardrail state — a SELL exit signal arriving on
the stop-breach bar reopens a short position. -/
theorem c2_live_policy_first_backtest_guard_first :
    (∀ (resp : LiveResp) (bar : LiveBar) (sid : String) (pos : LivePos) (sig : Signal),
      resp sid = .ok (some sig) → pos.side = .long → sig.type = .sell →
      bar.l ≤ pos.sl →
      liveExitThenGuard resp bar [(sid, pos)] =
        ([], [⟨sid, .strategyExit, bar.c, pos.qty⟩])) ∧
    (∀ (settings : BtSettings) (st : BtState) (bar : Bar) (pos : Position) (s : ℚ)
        (sig : Signal),
      st.position = some pos → pos.side = .long → pos.stop_loss = some s → s ≠ 0 →
      bar.low ≤ s → sig.type = .sell →
      0 < pyInt ((st.cash + s * (pos.shares : ℚ)) * settings.risk_pct / bar.close) →
      (btStep settings st bar (some sig)).trades =
          st.trades ++ [⟨.long, pos.entry_time, bar.timestamp, pos.entry_price, s,
            pos.shares, (s - pos.entry_price) * (pos.shares : ℚ),
            (s - pos.entry_price) * (pos.shares : ℚ) /
              (pos.entry_price * (pos.shares : ℚ)) * 100, .stop_loss⟩] ∧
        (btStep settings st bar (some sig)).position.map Position.side = some Side.short) := by
  constructor
  · intro resp bar sid pos sig hresp hside htype hguard
    simp [liveExitThenGuard, strategyExitPass, guardrailPass, hresp, htype, hside,
      isExitSignal]
  · intro settings st bar pos s sig hpos hside hsl hs hls htype hshares
    simp [btStep, guardPhase, signalPhase, hpos, hside, hsl, htype, truthy, closePnl,
      hs, hls, hshares]

/-- Witness for C2 (amended): a live long with stop 99 whose policy emits
SELL on a bar with low 98.5 closes with `STRATEGY_EXIT`; the same
situation in the backtest closes by the guardrail at the stop and reopens
a short. -/
theorem c2_live_policy_first_backtest_guard_first_witness :
    liveExitThenGuard (fun _ => .ok (some ⟨.sell, none, none⟩))
        ⟨9, 45, 100, 197 / 2, 100⟩ [("GapAndGo_P1", ⟨.long, 10, 100, 99, 102, "GapAndGo", 1⟩)] =
      ([], [⟨"GapAndGo_P1", .strategyExit, 100, 10⟩]) ∧
    ((btStep stdSettings ⟨99000, some ⟨.long, 0, 100, 10, some 99, some 102⟩, [], none⟩
          ⟨1, 100, 101, 989 / 10, 201 / 2, 0⟩ (some ⟨.sell, none, none⟩)).trades =
        [⟨.long, 0, 1, 100, 99, 10, (99 - 100) * ((10 : ℤ) : ℚ),
          (99 - 100) * ((10 : ℤ) : ℚ) / (100 * ((10 : ℤ) : ℚ)) * 100, .stop_loss⟩] ∧
      (btStep stdSettings ⟨99000, some ⟨.long, 0, 100, 10, some 99, some 102⟩, [], none⟩
          ⟨1, 100, 101, 989 / 10, 201 / 2, 0⟩
          (some ⟨.sell, none, none⟩)).position.map Position.side = some Side.short) :=
  ⟨c2_live_policy_first_backtest_guard_first.1 _ _ "GapAndGo_P1" _ _ rfl rfl rfl
      (by norm_num),
   c2_live_policy_first_backtest_guard_first.2 stdSettings
      ⟨99000, some ⟨.long, 0, 100, 10, some 99, some 102⟩, [], none⟩
      ⟨1, 100, 101, 989 / 10, 201 / 2, 0⟩ ⟨.long, 0, 100, 10, some 99, some 102⟩ 99
      ⟨.sell, none, none⟩ rfl rfl rfl (by norm_num) (by norm_num) rfl
      (by norm_num [pyInt, stdSettings])⟩

/-- C8: with two enabled slots of priorities 1 and 2 (given to the sort in
either order), when the priority-1 slot produces a qualifying entry, only
that slot opens a position, its id is the only policy invoked by the
entry pass, and exactly one new entry occurs on the symbol for that bar. -/
theorem c8_priority_one_slot_wins :
    ∀ (resp : LiveResp) (bar : LiveBar) (equity : ℚ) (s1 s2 : Slot) (sig : Signal),
      s1.priority = 1 → s2.priority = 2 →
      inWindowEast (bar.eastHour * 60 + bar.eastMinute) s1.startMin s1.endMin = true →
      resp (strategyId s1) = .ok (some sig) → sig.type = .buy →
      ((s1.lunch_skip.getD false) && decide (bar.eastHour = 12)) = false →
      0 < s1.sl_percent.getD 1 / 100 →
      (liveEntryPass resp bar equity [] (sortSlots [s2, s1])).2 = [strategyId s1] ∧
      (liveEntryPass resp bar equity [] (sortSlots [s2, s1])).1.map Prod.fst =
        [strategyId s1] := by
  intro resp bar equity s1 s2 sig h1 h2 hw hresp htype hlunch hsl
  have hsort : sortSlots [s2, s1] = [s1, s2] := by
    simp [sortSlots, insertSlot, h1, h2]
  rw [hsort]
  simp [liveEntryPass, hw, hresp, htype, hlunch, hsl]

/-- Witness for C8: two concrete slots with priorities 1 and 2, both ready
to buy; only the priority-1 slot's policy is consulted and opens. -/
theorem c8_priority_one_slot_wins_witness :
    (liveEntryPass (fun _ => .ok (some ⟨.buy, none, none⟩)) ⟨9, 45, 100, 99, 100⟩ 100000 []
        (sortSlots [⟨"ORB", 2, 570, 960, none, none, none, none⟩,
          ⟨"GapAndGo", 1, 570, 960, none, none, none, none⟩])).2 =
      [strategyId ⟨"GapAndGo", 1, 570, 960, none, none, none, none⟩] ∧
    (liveEntryPass (fun _ => .ok (some ⟨.buy, none, none⟩)) ⟨9, 45, 100, 99, 100⟩ 100000 []
        (sortSlots [⟨"ORB", 2, 570, 960, none, none, none, none⟩,
          ⟨"GapAndGo", 1, 570, 960, none, none, none, none⟩])).1.map Prod.fst =
      [strategyId ⟨"GapAndGo", 1, 570, 960, none, none, none, none⟩] :=
  c8_priority_one_slot_wins _ _ 100000 ⟨"GapAndGo", 1, 570, 960, none, none, none, none⟩
    ⟨"ORB", 2, 570, 960, none, none, none, none⟩ ⟨.buy, none, none⟩ rfl rfl
    (by norm_num [inWindowEast]) rfl rfl (by norm_num) (by norm_num)

/-- C5 (amended): live mode and the backtest replay size entries
differently.  The backtest opens `floor(riskFraction * equity / price)`
shares (no stop fraction, no 1-share minimum), requires a positive share
count, cash-caps long entries and does not cash-cap short entries; the
live entry pass opens `max(1, floor(riskFraction * equity /
(price * stopFraction)))` shares with no cash condition at all. -/
theorem c5_sizing_live_vs_backtest :
    (∀ (settings : BtSettings) (st : BtState) (bar : Bar) (sig : Signal),
      st.position = none → sig.type = .buy →
      0 < pyInt (st.cash * settings.risk_pct / bar.close) →
      ((pyInt (st.cash * settings.risk_pct / bar.close) : ℤ) : ℚ) * bar.close ≤ st.cash →
      (btStep settings st bar (some sig)).position.map Position.shares =
        some (pyInt (st.cash * settings.risk_pct / bar.close))) ∧
    (∀ (settings : BtSettings) (st : BtState) (bar : Bar) (sig : Signal),
      st.position = none → sig.type = .buy →
      ¬(((pyInt (st.cash * settings.risk_pct / bar.close) : ℤ) : ℚ) * bar.close ≤ st.cash) →
      (btStep settings st bar (some sig)).position = none) ∧
    (∀ (settings : BtSettings) (st : BtState) (bar : Bar) (sig : Signal),
      st.position = none → sig.type = .sell →
      0 < pyInt (st.cash * settings.risk_pct / bar.close) →
      (btStep settings st bar (some sig)).position.map Position.shares =
        some (pyInt (st.cash * settings.risk_pct / bar.close))) ∧
    (∀ (resp : LiveResp) (bar : LiveBar) (equity : ℚ) (s : Slot) (sig : Signal),
      resp (strategyId s) = .ok (some sig) → sig.type = .buy →
      inWindowEast (bar.eastHour * 60 + bar.eastMinute) s.startMin s.endMin = true →
      ((s.lunch_skip.getD false) && decide (bar.eastHour = 12)) = false →
      0 < s.sl_percent.getD 1 / 100 →
      (liveEntryPass resp bar equity [] [s]).1.map (fun e => e.2.qty) =
        [max 1 (pyInt (s.risk_percent.getD 1 / 100 * equity /
          (bar.c * (s.sl_percent.getD 1 / 100))))]) := by
  refine ⟨?_, ?_, ?_, ?_⟩
  · intro settings st bar sig hpos htype hq hcash
    simp [btStep, guardPhase, signalPhase, hpos, htype, hq, hcash]
  · intro settings st bar sig hpos htype hcash
    simp [btStep, guardPhase, signalPhase, hpos, htype, hcash]
  · intro settings st bar sig hpos htype hq
    simp [btStep, guardPhase, signalPhase, hpos, htype, hq]
  · intro resp bar equity s sig hresp htype hw hlunch hsl
    simp [liveEntryPass, hresp, htype, hw, hlunch, hsl]

/-- Witness for C5 (amended): with risk 1%, cash 100000 and price 100 the
backtest opens 10 shares long (funded) and 10 short; with risk 200%, cash
100 and price 30 the long entry is refused as unfunded; the live pass
with risk 1%, stop 1%, equity 100000 and price 100 opens 1000 shares. -/
theorem c5_sizing_live_vs_backtest_witness :
    (btStep stdSettings ⟨100000, none, [], none⟩ ⟨0, 100, 100, 100, 100, 0⟩
        (some ⟨.buy, none, none⟩)).position.map Position.shares =
      some (pyInt (100000 * (1 / 100) / 100)) ∧
    (btStep ⟨2, 1 / 100, 2 / 100⟩ ⟨100, none, [], none⟩ ⟨0, 30, 30, 30, 30, 0⟩
        (some ⟨.buy, none, none⟩)).position = none ∧
    (btStep stdSettings ⟨100000, none, [], none⟩ ⟨0, 100, 100, 100, 100, 0⟩
        (some ⟨.sell, none, none⟩)).position.map Position.shares =
      some (pyInt (100000 * (1 / 100) / 100)) ∧
    (liveEntryPass (fun _ => .ok (some ⟨.buy, none, none⟩)) ⟨9, 45, 100, 99, 100⟩ 100000 []
        [⟨"GapAndGo", 1, 570, 960, none, none, none, none⟩]).1.map (fun e => e.2.qty) =
      [max 1 (pyInt ((1 : ℚ) / 100 * 100000 / (100 * ((1 : ℚ) / 100))))] :=
  ⟨c5_sizing_live_vs_backtest.1 stdSettings ⟨100000, none, [], none⟩
      ⟨0, 100, 100, 100, 100, 0⟩ ⟨.buy, none, none⟩ rfl rfl
      (by norm_num [pyInt, stdSettings]) (by norm_num [pyInt, stdSettings]),
   c5_sizing_live_vs_backtest.2.1 ⟨2, 1 / 100, 2 / 100⟩ ⟨100, none, [], none⟩
      ⟨0, 30, 30, 30, 30, 0⟩ ⟨.buy, none, none⟩ rfl rfl (by norm_num [pyInt]),
   c5_sizing_live_vs_backtest.2.2.1 stdSettings ⟨100000, none, [], none⟩
      ⟨0, 100, 100, 100, 100, 0⟩ ⟨.sell, none, none⟩ rfl rfl
      (by norm_num [pyInt, stdSettings]),
   c5_sizing_live_vs_backtest.2.2.2 _ ⟨9, 45, 100, 99, 100⟩ 100000
      ⟨"GapAndGo", 1, 570, 960, none, none, none, none⟩ ⟨.buy, none, none⟩ rfl rfl
      (by norm_num [inWindowEast]) (by norm_num) (by norm_num)⟩

set_option maxHeartbeats 2000000 in
/-- C7 (amended): once breakeven is locked the stored stop never worsens
(never decreases for a long, never increases for a short), and while the
breakeven trigger has not fired the trailing update alone also only
ratchets favorably; the one unprotected transition is the breakeven-lock
event itself, which can overwrite a stop that trailing had already raised
past entry plus the breakeven buffer. -/
theorem c7_trailing_only_ratchets :
    (∀ (p : GagParams) (s : GagState) (bar : GagBar) (v : ℚ),
      s.breakeven_locked = true → s.initial_stop = some v →
      ∃ v', (updateTrailingStop p s bar .long).1.initial_stop = some v' ∧ v ≤ v') ∧
    (∀ (p : GagParams) (s : GagState) (bar : GagBar) (v : ℚ),
      s.breakeven_locked = true → s.initial_stop = some v →
      ∃ v', (updateTrailingStop p s bar .short).1.initial_stop = some v' ∧ v' ≤ v) ∧
    (∀ (p : GagParams) (s : GagState) (bar : GagBar) (v : ℚ),
      s.breakeven_locked = false →
      bar.close < s.entry_price.getD 0 + s.r_value.getD s.atr →
      s.initial_stop = some v →
      ∃ v', (updateTrailingStop p s bar .long).1.initial_stop = some v' ∧ v ≤ v') ∧
    (∀ (p : GagParams) (s : GagState) (bar : GagBar) (v : ℚ),
      s.breakeven_locked = false →
      s.entry_price.getD 0 - s.r_value.getD s.atr < bar.close →
      s.initial_stop = some v →
      ∃ v', (updateTrailingStop p s bar .short).1.initial_stop = some v' ∧ v' ≤ v) := by
  refine ⟨?_, ?_, ?_, ?_⟩
  · intro p s bar v hlock hv
    unfold updateTrailingStop
    simp only [hlock, hv, Option.getD_some, Bool.not_true, Bool.false_eq_true, if_false]
    split_ifs <;>
      first
        | exact ⟨v, hv, le_refl v⟩
        | exact ⟨_, rfl, le_of_lt (by assumption)⟩
  · intro p s bar v hlock hv
    unfold updateTrailingStop
    simp only [hlock, hv, Option.getD_some, Bool.not_true, Bool.false_eq_true, if_false]
    split_ifs <;>
      first
        | exact ⟨v, hv, le_refl v⟩
        | exact ⟨_, rfl, le_of_lt (by assumption)⟩
  · intro p s bar v hlock hclose hv
    unfold updateTrailingStop
    simp only [hlock, hv, Option.getD_some, Bool.not_false, eq_self_iff_true, if_true]
    split_ifs <;>
      first
        | exact ⟨v, hv, le_refl v⟩
        | exact ⟨_, rfl, le_of_lt (by assumption)⟩
        | exact absurd (by assumption) (not_le.mpr hclose)
  · intro p s bar v hlock hclose hv
    unfold updateTrailingStop
    simp only [hlock, hv, Option.getD_some, Bool.not_false, eq_self_iff_true, if_true]
    split_ifs <;>
      first
        | exact ⟨v, hv, le_refl v⟩
        | exact ⟨_, rfl, le_of_lt (by assumption)⟩
        | exact absurd (by assumption) (not_le.mpr hclose)

set_option maxHeartbeats 2000000 in
/-- Witness for C7 (amended): the locked and not-yet-triggered cases at
the concrete in-position state of the counterexample scenario. -/
theorem c7_trailing_only_ratchets_witness :
    (∃ v', (updateTrailingStop defaultGagParams
        { c7State with breakeven_locked := true } c7Bar .long).1.initial_stop = some v' ∧
        (21 / 2 : ℚ) ≤ v') ∧
    (∃ v', (updateTrailingStop defaultGagParams
        { c7State with breakeven_locked := true, initial_stop := some (19 / 2) } c7Bar
        .short).1.initial_stop = some v' ∧ v' ≤ (19 / 2 : ℚ)) ∧
    (∃ v', (updateTrailingStop defaultGagParams c7State
        ⟨0, 9, 45, 45, 11, 113 / 10, 54 / 5, 109 / 10, 100⟩ .long).1.initial_stop =
        some v' ∧ (21 / 2 : ℚ) ≤ v') ∧
    (∃ v', (updateTrailingStop defaultGagParams c7State
        ⟨0, 9, 45, 45, 11, 113 / 10, 54 / 5, 109 / 10, 100⟩ .short).1.initial_stop =
        some v' ∧ v' ≤ (21 / 2 : ℚ)) :=
  ⟨c7_trailing_only_ratchets.1 defaultGagParams _ c7Bar (21 / 2) rfl rfl,
   c7_trailing_only_ratchets.2.1 defaultGagParams _ c7Bar (19 / 2) rfl rfl,
   c7_trailing_only_ratchets.2.2.1 defaultGagParams c7State _ (21 / 2) rfl
      (by norm_num [c7State]) rfl,
   c7_trailing_only_ratchets.2.2.2 defaultGagParams c7State _ (21 / 2) rfl
      (by norm_num [c7State]) rfl⟩

end AlpacaBot
